import Mathlib

/-!
Shallow embedding of the CP2K accelerator stream/event layer:

* `src/cp2k/src/acc/opencl/acc_opencl_event.c` — the OpenCL backend of the
  ACC event interface (`acc_event_create`, `acc_event_destroy`,
  `acc_event_record`, `acc_event_query`, `acc_stream_wait_event`,
  `acc_event_synchronize`).
* `src/cp2k/src/acc/mic/libxstream/include/libxstream_macros.h` — the
  libxstream error codes, check macros and the offload-region dispatch
  macros (`LIBXSTREAM_OFFLOAD_DECL`, `LIBXSTREAM_OFFLOAD_BEGIN/END`).

Each C function becomes a pure Lean function.  The results of the
underlying OpenCL calls (`clCreateUserEvent`, `clReleaseEvent`, ...) are
not computed here; they enter as explicit error-code arguments, and the
embedding reproduces exactly the control flow the C body performs on
those codes.  The heap effects that matter to the verified properties
(the allocation backing an event handle, the device-side execution
status of the `cl_event`, the bookkeeping fields of a stream) are
threaded through an explicit `AccWorld` state.
-/

namespace Cp2kAcc

/-! ### OpenCL constants (from `CL/cl.h`) -/

/-- OpenCL: `#define CL_SUCCESS 0x0`. -/
def CL_SUCCESS : Int := 0

/-- OpenCL: `#define CL_COMPLETE 0x0` — execution status of an event whose
command has completed. -/
def CL_COMPLETE : Int := 0

/-- OpenCL: `#define CL_SUBMITTED 0x3` — the execution status a user event
has right after `clCreateUserEvent` (per the OpenCL specification). -/
def CL_SUBMITTED : Int := 3

/-- Modelled from the spec: `acc_opencl_error_check` is declared in
`acc_opencl_error.h`, a header of this repository that is not under
`src/`.  Per the spec's failure semantics ("Failure kind is always
'backend error' (the underlying device API rejected the call)",
propagated as a non-zero status), it flags exactly the device calls
whose returned error code is not `CL_SUCCESS`. -/
def acc_opencl_error_check (cl_error : Int) : Bool :=
  cl_error != CL_SUCCESS

/-! ### The state threaded through the event operations

The bookkeeping fields of the spec's Stream object (`libxstream_stream`
in the MIC backend; its class body is not under `src/`, so the fields
are modelled from the spec's data model §3: `device`, a monotonically
non-decreasing `signal` starting at 0, `pending`, and an optional native
queue handle). -/

structure libxstream_stream where
  device : Int
  signal : Nat
  pending : Nat
  handle : Int
  deriving Repr, DecidableEq

/-- The slice of mutable state the OpenCL event functions can touch:
whether the `malloc` allocation backing the event handle is live, the
device-side execution status of the `cl_event`, and the bookkeeping
fields of an associated stream (which, one can check against the C
bodies, are never written by any event operation: the functions only
read `(*clstream).queue`). -/
structure AccWorld where
  eventAlloc : Bool
  eventStatus : Int
  streamState : libxstream_stream
  deriving Repr, DecidableEq

/-! ### `acc_event_create` (acc_opencl_event.c, lines 28–52)

```
int acc_event_create (void** event_p){
  *event_p = malloc(sizeof(cl_event));
  cl_event *clevent = (cl_event *) *event_p;
  *clevent = clCreateUserEvent((*acc_opencl_my_device).ctx, &cl_error);
  if (acc_opencl_error_check(cl_error, __LINE__))
    return -1;
//foxtest
cl_error = clSetUserEventStatus(*clevent, CL_COMPLETE);
//foxtest
  return 0;
}
```

Arguments: `fresh` is the (non-null) pointer returned by `malloc`,
`errCreate` the error code produced by `clCreateUserEvent`, `errSet`
the error code returned by `clSetUserEventStatus`.  The result is the
returned status, the value stored through `event_p`, and the world.
Note two facts of the body reproduced here: `*event_p` is overwritten
with the fresh allocation before any error check, and the error code of
`clSetUserEventStatus` is stored into `cl_error` but never checked, so
the function returns 0 regardless of it. -/
def acc_event_create (fresh : Nat) (errCreate errSet : Int) (w : AccWorld) :
    Int × Option Nat × AccWorld :=
  let w1 : AccWorld := { w with eventAlloc := true }
  if acc_opencl_error_check errCreate then
    (-1, some fresh, w1)
  else
    let st : Int := if errSet = CL_SUCCESS then CL_COMPLETE else CL_SUBMITTED
    (0, some fresh, { w1 with eventStatus := st })

/-! ### `acc_event_destroy` (lines 62–80)

```
cl_error = clReleaseEvent(*clevent);
if (acc_opencl_error_check(cl_error, __LINE__))
  return -1;
free(clevent);
return 0;
```

On a failing `clReleaseEvent` the function returns before `free`, so the
allocation stays live. -/
def acc_event_destroy (errRelease : Int) (w : AccWorld) : Int × AccWorld :=
  if acc_opencl_error_check errRelease then
    (-1, w)
  else
    (0, { w with eventAlloc := false })

/-! ### `acc_event_record` (lines 90–111)

```
cl_error = clEnqueueMarker((*clstream).queue, clevent);
if (acc_opencl_error_check(cl_error, __LINE__))
  return -1;
return 0;
```

On success `clEnqueueMarker` rebinds `*clevent` to a fresh marker event
of the queue; the marker's device-side progress is outside this model,
so the world is returned unchanged. -/
def acc_event_record (errMarker : Int) (w : AccWorld) : Int × AccWorld :=
  if acc_opencl_error_check errMarker then
    (-1, w)
  else
    (0, w)

/-! ### `acc_event_query` (lines 121–158)

```
char *param_value = NULL;
size_t param_value_size;
cl_error = clGetEventInfo(*clevent, CL_EVENT_COMMAND_EXECUTION_STATUS,
            0, NULL, &param_value_size);
if (acc_opencl_error_check(cl_error, __LINE__)) return -1;
param_value = (char *) malloc(param_value_size * sizeof(char));
cl_error = clGetEventInfo(*clevent, CL_EVENT_COMMAND_EXECUTION_STATUS,
            param_value_size, param_value, NULL);
if (acc_opencl_error_check(cl_error, __LINE__)) return -1;
if (param_value == CL_COMPLETE){ *has_occured = 1; } else { *has_occured = 0; }
free(param_value);
return 0;
```

Arguments: `status` is the execution status of the event as reported by
the device — on success the second `clGetEventInfo` writes it into the
buffer `param_value` points to; `err1`/`err2` are the error codes of the
two `clGetEventInfo` calls; `param_value` is the pointer returned by
`malloc` (0 encodes NULL).  The test `param_value == CL_COMPLETE`
compares the POINTER `param_value` (a `char *`) with the integer
constant `CL_COMPLETE` = 0, i.e. it is a null-pointer test; the queried
status stored in the buffer is never read, which is why `status` does
not occur in the body below.  The result is the returned status, the
value written through `has_occured` (when it is written), and the
world, which the function never changes. -/
def acc_event_query (status err1 err2 : Int) (param_value : Nat) (w : AccWorld) :
    Int × Option Int × AccWorld :=
  if acc_opencl_error_check err1 then
    (-1, none, w)
  else if acc_opencl_error_check err2 then
    (-1, none, w)
  else if (param_value : Int) = CL_COMPLETE then
    (0, some 1, w)
  else
    (0, some 0, w)

/-! ### `acc_stream_wait_event` (lines 168–187)

```
cl_error = clEnqueueWaitForEvents((*clstream).queue, (cl_uint) 1, clevent);
if (acc_opencl_error_check(cl_error, __LINE__))
  return -1;
return 0;
```
-/
def acc_stream_wait_event (errWait : Int) (w : AccWorld) : Int × AccWorld :=
  if acc_opencl_error_check errWait then
    (-1, w)
  else
    (0, w)

/-! ### `acc_event_synchronize` (lines 197–214)

```
cl_error = clWaitForEvents((cl_uint) 1, clevent);
if (acc_opencl_error_check(cl_error, __LINE__))
  return -1;
return 0;
```
-/
def acc_event_synchronize (errWait : Int) (w : AccWorld) : Int × AccWorld :=
  if acc_opencl_error_check errWait then
    (-1, w)
  else
    (0, w)

/-! ### libxstream error codes and check macros (libxstream_macros.h, lines 124–155)

```
#define LIBXSTREAM_ERROR_NONE       0
#define LIBXSTREAM_ERROR_RUNTIME   -1
#define LIBXSTREAM_ERROR_CONDITION -2
```
-/

def LIBXSTREAM_ERROR_NONE : Int := 0

def LIBXSTREAM_ERROR_RUNTIME : Int := -1

def LIBXSTREAM_ERROR_CONDITION : Int := -2

/-- `LIBXSTREAM_CHECK_CONDITION(CONDITION)` with `LIBXSTREAM_CHECK`
defined (line 139): `if (!(CONDITION)) return LIBXSTREAM_ERROR_CONDITION;`.
`some c` models the early `return c`; `none` models falling through. -/
def LIBXSTREAM_CHECK_CONDITION (condition : Bool) : Option Int :=
  if !condition then some LIBXSTREAM_ERROR_CONDITION else none

/-- `LIBXSTREAM_CHECK_ERROR(RETURN_VALUE)` with `LIBXSTREAM_CHECK`
defined (line 138): `if (LIBXSTREAM_ERROR_NONE != (RETURN_VALUE)) return
RETURN_VALUE;`. -/
def LIBXSTREAM_CHECK_ERROR (return_value : Int) : Option Int :=
  if LIBXSTREAM_ERROR_NONE != return_value then some return_value else none

/-! ### The offload-region declaration blocks (`LIBXSTREAM_OFFLOAD_DECL`)

The local variables every offload region's body opens with.  Under the
asynchronous strategies `signal_` is mutable (each
`LIBXSTREAM_OFFLOAD_TARGET_SIGNAL` pragma performs `signal(signal_++)`);
the values below are its initial binding. -/

structure OffloadDecl where
  device_ : Int
  signal_ : Nat
  signal_consumed_ : Nat
  pending_ : Nat
  deriving Repr, DecidableEq

/-- Asynchronous signal/wait strategy (`1 == LIBXSTREAM_ASYNC`, lines
159–163):

```
int device_ = stream_ ? stream_->device() : val<int,0>();
libxstream_signal signal_ = stream_ ? stream_->signal() : 0;
const libxstream_signal signal_consumed_ = signal_;
const libxstream_signal pending_ = stream_ ? stream_->pending() : 0
```

`val<int,0>()` is the target-safe constant 0. -/
def offload_decl_async (stream_ : Option libxstream_stream) : OffloadDecl :=
  { device_ := match stream_ with
      | some s => s.device
      | none => 0
    signal_ := match stream_ with
      | some s => s.signal
      | none => 0
    signal_consumed_ := match stream_ with
      | some s => s.signal
      | none => 0
    pending_ := match stream_ with
      | some s => s.pending
      | none => 0 }

/-- Synchronous strategy (lines 179–183):

```
int device_ = stream_ ? stream_->device() : val<int,0>();
const libxstream_signal signal_ = 0;
const libxstream_signal signal_consumed_ = 0;
const libxstream_signal pending_ = 0
```

Note `device_` is still resolved from the stream; only the three signal
variables are the constant 0. -/
def offload_decl_sync (stream_ : Option libxstream_stream) : OffloadDecl :=
  { device_ := match stream_ with
      | some s => s.device
      | none => 0
    signal_ := 0
    signal_consumed_ := 0
    pending_ := 0 }

/-! ### The end-of-region hook (`LIBXSTREAM_OFFLOAD_END`, lines 203–207)

```
while(false); \
  if (stream_ && signal_ != signal_consumed_) stream_->pending(signal_consumed_); \
```

`signal_` and `signal_consumed_` are the region-local variables at the
moment the body finishes (`signal_` has been incremented once per
consumed signal; `signal_consumed_` is the constant snapshot taken by
`LIBXSTREAM_OFFLOAD_DECL`).  `stream_->pending(s)` stores `s` into the
stream's pending field. -/
def offload_end (stream_ : Option libxstream_stream)
    (signal_ signal_consumed_ : Nat) : Option libxstream_stream :=
  match stream_ with
  | some s =>
      if signal_ != signal_consumed_ then
        some { s with pending := signal_consumed_ }
      else
        some s
  | none => none

/-! ### Stream bookkeeping machine

Modelled from the spec: the `libxstream_stream` class body (its
`signal()`, `pending()` accessors and the counter advance) is not under
`src/`; §4.1 of the spec gives the bookkeeping operations
(`next_signal` returns the next unused signal value and advances the
counter by one; `mark_pending` records the outstanding signal;
completion confirmation resets `pending` to 0, making `is_ready` true),
and `LIBXSTREAM_OFFLOAD_END` (in `src/`) shows a dispatch that consumed
a signal storing the consumed value into `pending`. -/

inductive StreamOp where
  /-- An asynchronous dispatch that consumes one signal: the region is
  tagged with the current counter value, the counter advances by one,
  and the end-of-region hook stores the consumed value into `pending`. -/
  | dispatchAsync : StreamOp
  /-- A dispatch whose region consumed no signal: per
  `LIBXSTREAM_OFFLOAD_END`, `pending` is left unchanged. -/
  | dispatchNoSignal : StreamOp
  /-- Completion of all outstanding work is confirmed: `pending`
  returns to 0 (the `is_ready` state). -/
  | confirm : StreamOp
  deriving Repr, DecidableEq

def streamStep : StreamOp → libxstream_stream → libxstream_stream
  | .dispatchAsync, s => { s with signal := s.signal + 1, pending := s.signal }
  | .dispatchNoSignal, s => s
  | .confirm, s => { s with pending := 0 }

/-- A stream as handed out by the device-context collaborator: the
signal counter starts at 0 and no work is pending. -/
def streamStart (device : Int) (handle : Int) : libxstream_stream :=
  { device := device, signal := 0, pending := 0, handle := handle }

/-- The stream's bookkeeping state after a sequence of operations. -/
def streamRun (device handle : Int) (ops : List StreamOp) : libxstream_stream :=
  ops.foldl (fun s op => streamStep op s) (streamStart device handle)

/-- A concrete world used to instantiate theorems: no live event
allocation, event status `CL_SUBMITTED`, a fresh stream on device 0. -/
def testWorld : AccWorld :=
  { eventAlloc := false, eventStatus := CL_SUBMITTED, streamState := streamStart 0 0 }

end Cp2kAcc

namespace Cp2kAcc

/-!  ## Theorems settling the claims  -/

/-- C1: the claim — a freshly created event reports `occurred = false`
from `query` until it is explicitly recorded, i.e. it is created in the
unsignaled state — is the spec's intended contract, and the code
violates it: when every device call succeeds, `acc_event_create`
immediately forces the new user event's execution status to
`CL_COMPLETE` (signaled) through the unchecked `clSetUserEventStatus`
call in the `foxtest` block, before any `acc_event_record`. -/
theorem C1_create_force_signals_event :
    (acc_event_create 1 CL_SUCCESS CL_SUCCESS testWorld).1 = 0 ∧
    (acc_event_create 1 CL_SUCCESS CL_SUCCESS testWorld).2.2.eventStatus = CL_COMPLETE := by
  decide

/-- C2: the claim — on a successful `acc_event_query` (status 0), the
value stored through `has_occured` is 1 iff the event has reached
`CL_COMPLETE` — fails on the code: `if (param_value == CL_COMPLETE)`
compares the malloc'd POINTER with the constant 0 instead of reading
the queried status out of the buffer, so for a device-reported status
of `CL_COMPLETE`, successful `clGetEventInfo` calls and a non-null
buffer pointer (here 1), the function succeeds yet stores
`has_occured = 0`. -/
theorem C2_query_ignores_device_status :
    acc_event_query CL_COMPLETE CL_SUCCESS CL_SUCCESS 1 testWorld =
      (0, some 0, testWorld) := by
  decide

/-- C4: the claim — no public event operation absorbs the failure of an
internal backend call while returning 0 — fails on the code: in
`acc_event_create` the error code of the `foxtest` call
`clSetUserEventStatus` (here `CL_OUT_OF_RESOURCES` = -5) is stored into
`cl_error` but never checked, and the function returns 0. -/
theorem C4_create_absorbs_set_status_failure :
    acc_opencl_error_check (-5) = true ∧
    (acc_event_create 1 CL_SUCCESS (-5) testWorld).1 = 0 := by
  decide

/-- C10: `acc_event_create` stores the fresh `malloc` allocation through
`event_p` before any error check, so the out-parameter holds a live
allocation (never `none`, never its previous value) on every path, and
in particular when `clCreateUserEvent` fails and the function returns
-1. -/
theorem C10_create_writes_handle_before_check (fresh : Nat)
    (errCreate errSet : Int) (w : AccWorld) :
    (acc_event_create fresh errCreate errSet w).2.1 = some fresh ∧
    (acc_event_create fresh errCreate errSet w).2.1 ≠ none ∧
    (acc_opencl_error_check errCreate = true →
      (acc_event_create fresh errCreate errSet w).1 = -1 ∧
      (acc_event_create fresh errCreate errSet w).2.2.eventAlloc = true) := by
  unfold acc_event_create
  by_cases h : acc_opencl_error_check errCreate <;> simp [h]

/-- C10 witness: the theorem at `fresh` = 3, a failing
`clCreateUserEvent` (error code -6), `errSet` = 0. -/
theorem C10_witness :
    acc_opencl_error_check (-6) = true ∧
    (acc_event_create 3 (-6) 0 testWorld).2.1 = some 3 ∧
    (acc_event_create 3 (-6) 0 testWorld).1 = -1 :=
  ⟨by decide, (C10_create_writes_handle_before_check 3 (-6) 0 testWorld).1,
    ((C10_create_writes_handle_before_check 3 (-6) 0 testWorld).2.2 (by decide)).1⟩

/-- C3 counterexample: the claim — for some input, `acc_stream_wait_event`
returns a negative status other than -1 (a distinct condition-error
code) — is false: on every input the function returns either 0 or -1,
because its body only checks the single `clEnqueueWaitForEvents` error
code and has no condition-check path. -/
theorem C3_no_distinct_condition_code : ¬ ∃ e : Int, ∃ w : AccWorld,
    (acc_stream_wait_event e w).1 < 0 ∧ (acc_stream_wait_event e w).1 ≠ -1 := by
  rintro ⟨e, w, h1, h2⟩
  unfold acc_stream_wait_event at h1 h2
  by_cases h : acc_opencl_error_check e
  · simp [h] at h2
  · simp [h] at h1

/-- C3 amended: when the backend cannot perform the wait (for instance
across device contexts) the underlying `clEnqueueWaitForEvents` call
fails and `acc_stream_wait_event` returns the backend-error code -1
(`LIBXSTREAM_ERROR_RUNTIME`); the function has no distinct
condition-error return, its status is always 0 or -1. -/
theorem C3_wait_event_status (e : Int) (w : AccWorld) :
    ((acc_stream_wait_event e w).1 = LIBXSTREAM_ERROR_NONE ∨
      (acc_stream_wait_event e w).1 = LIBXSTREAM_ERROR_RUNTIME) ∧
    (acc_opencl_error_check e = true →
      (acc_stream_wait_event e w).1 = LIBXSTREAM_ERROR_RUNTIME) := by
  unfold acc_stream_wait_event
  by_cases h : acc_opencl_error_check e <;>
    simp [h, LIBXSTREAM_ERROR_NONE, LIBXSTREAM_ERROR_RUNTIME]

/-- C3 witness: the amended theorem at the failing backend code -30
(`CL_INVALID_VALUE`). -/
theorem C3_wait_event_status_witness :
    acc_opencl_error_check (-30) = true ∧
    (acc_stream_wait_event (-30) testWorld).1 = LIBXSTREAM_ERROR_RUNTIME :=
  ⟨by decide, (C3_wait_event_status (-30) testWorld).2 (by decide)⟩

/-- C5 counterexample: the claim — every public operation returns 0 on
success and -1 when the underlying backend call fails — is false:
`acc_event_create` with a succeeding `clCreateUserEvent` but a failing
`clSetUserEventStatus` (error code -42) returns 0, not -1, because that
backend call's error code is stored but never checked. -/
theorem C5_backend_failure_not_propagated_in_create :
    acc_opencl_error_check (-42) = true ∧
    (acc_event_create 4 CL_SUCCESS (-42) ⟨true, 0, streamStart 2 3⟩).1 = 0 ∧
    (0 : Int) ≠ LIBXSTREAM_ERROR_RUNTIME := by
  decide

/-- C5 amended: for every input, every public event operation returns
exactly `LIBXSTREAM_ERROR_NONE` (0) or `LIBXSTREAM_ERROR_RUNTIME` (-1),
determined by the backend calls it checks: destroy, record, query, wait
and synchronize return -1 precisely when one of their checked backend
calls fails and 0 otherwise, while `acc_event_create`'s status depends
only on `clCreateUserEvent` — the failure of its unchecked
`clSetUserEventStatus` call still yields 0.  The distinct negative
condition code `LIBXSTREAM_ERROR_CONDITION` (-2) exists at the macro
layer, produced by `LIBXSTREAM_CHECK_CONDITION` exactly on a violated
condition, but no public event operation of this backend returns it. -/
theorem C5_status_codes_amended :
    (LIBXSTREAM_ERROR_NONE = 0 ∧ LIBXSTREAM_ERROR_RUNTIME = -1 ∧
      LIBXSTREAM_ERROR_CONDITION = -2 ∧ LIBXSTREAM_ERROR_CONDITION < 0 ∧
      LIBXSTREAM_ERROR_CONDITION ≠ LIBXSTREAM_ERROR_RUNTIME) ∧
    (∀ e : Int, ∀ w : AccWorld,
      (acc_event_destroy e w).1 =
        if acc_opencl_error_check e then LIBXSTREAM_ERROR_RUNTIME
        else LIBXSTREAM_ERROR_NONE) ∧
    (∀ e : Int, ∀ w : AccWorld,
      (acc_event_record e w).1 =
        if acc_opencl_error_check e then LIBXSTREAM_ERROR_RUNTIME
        else LIBXSTREAM_ERROR_NONE) ∧
    (∀ st e1 e2 : Int, ∀ pv : Nat, ∀ w : AccWorld,
      (acc_event_query st e1 e2 pv w).1 =
        if acc_opencl_error_check e1 then LIBXSTREAM_ERROR_RUNTIME
        else if acc_opencl_error_check e2 then LIBXSTREAM_ERROR_RUNTIME
        else LIBXSTREAM_ERROR_NONE) ∧
    (∀ e : Int, ∀ w : AccWorld,
      (acc_stream_wait_event e w).1 =
        if acc_opencl_error_check e then LIBXSTREAM_ERROR_RUNTIME
        else LIBXSTREAM_ERROR_NONE) ∧
    (∀ e : Int, ∀ w : AccWorld,
      (acc_event_synchronize e w).1 =
        if acc_opencl_error_check e then LIBXSTREAM_ERROR_RUNTIME
        else LIBXSTREAM_ERROR_NONE) ∧
    (∀ fresh : Nat, ∀ errCreate errSet : Int, ∀ w : AccWorld,
      (acc_event_create fresh errCreate errSet w).1 =
        if acc_opencl_error_check errCreate then LIBXSTREAM_ERROR_RUNTIME
        else LIBXSTREAM_ERROR_NONE) ∧
    (LIBXSTREAM_CHECK_CONDITION false = some LIBXSTREAM_ERROR_CONDITION ∧
      LIBXSTREAM_CHECK_CONDITION true = none) := by
  refine ⟨by decide, ?_, ?_, ?_, ?_, ?_, ?_, by decide⟩
  · intro e w
    unfold acc_event_destroy
    by_cases h : acc_opencl_error_check e <;>
      simp [h, LIBXSTREAM_ERROR_NONE, LIBXSTREAM_ERROR_RUNTIME]
  · intro e w
    unfold acc_event_record
    by_cases h : acc_opencl_error_check e <;>
      simp [h, LIBXSTREAM_ERROR_NONE, LIBXSTREAM_ERROR_RUNTIME]
  · intro st e1 e2 pv w
    unfold acc_event_query
    by_cases h1 : acc_opencl_error_check e1
    · simp [h1, LIBXSTREAM_ERROR_RUNTIME]
    · by_cases h2 : acc_opencl_error_check e2
      · simp [h1, h2, LIBXSTREAM_ERROR_RUNTIME]
      · by_cases hp : (pv : Int) = CL_COMPLETE <;>
          simp [h1, h2, hp, LIBXSTREAM_ERROR_NONE]
  · intro e w
    unfold acc_stream_wait_event
    by_cases h : acc_opencl_error_check e <;>
      simp [h, LIBXSTREAM_ERROR_NONE, LIBXSTREAM_ERROR_RUNTIME]
  · intro e w
    unfold acc_event_synchronize
    by_cases h : acc_opencl_error_check e <;>
      simp [h, LIBXSTREAM_ERROR_NONE, LIBXSTREAM_ERROR_RUNTIME]
  · intro fresh errCreate errSet w
    unfold acc_event_create
    by_cases h : acc_opencl_error_check errCreate <;>
      simp [h, LIBXSTREAM_ERROR_NONE, LIBXSTREAM_ERROR_RUNTIME]

/-- C6: under the asynchronous signal/wait strategy the end-of-region
hook updates the stream's pending marker iff a new signal value was
consumed during the region (the region-local counter `signal_` differs
from the snapshot `signal_consumed_` taken at entry); when no signal
was consumed the stream is left unchanged. -/
theorem C6_offload_end_updates_pending_iff_consumed
    (s : libxstream_stream) (sig sigc : Nat) :
    (sig ≠ sigc → offload_end (some s) sig sigc = some { s with pending := sigc }) ∧
    (sig = sigc → offload_end (some s) sig sigc = some s) := by
  constructor <;> intro h <;> simp [offload_end, h]

/-- C6 witness: the theorem at a stream with pending 5, for a region
that consumed signal 3 (local counter 4, snapshot 3), and for one that
consumed none (counter = snapshot = 3). -/
theorem C6_offload_end_witness :
    offload_end (some ⟨7, 3, 5, 0⟩) 4 3 = some ⟨7, 3, 3, 0⟩ ∧
    offload_end (some ⟨7, 3, 5, 0⟩) 3 3 = some ⟨7, 3, 5, 0⟩ :=
  ⟨(C6_offload_end_updates_pending_iff_consumed ⟨7, 3, 5, 0⟩ 4 3).1 (by decide),
    (C6_offload_end_updates_pending_iff_consumed ⟨7, 3, 5, 0⟩ 3 3).2 rfl⟩

/-- C7 counterexample: the claim — the synchronous declaration block
binds device, signal, signal_consumed and pending all to zero
regardless of the stream's state — is false for the device: for a
stream on device 7 the block binds `device_` to 7, resolved from the
stream. -/
theorem C7_sync_decl_device_from_stream :
    (offload_decl_sync (some ⟨7, 3, 2, 0⟩)).device_ = 7 ∧ (7 : Int) ≠ 0 := by
  decide

/-- C7 amended: under the synchronous dispatch strategy the declaration
block binds `signal_`, `signal_consumed_` and `pending_` to the
constant 0 regardless of the stream's state, while `device_` is still
resolved from the stream (or the default 0 when no stream is given). -/
theorem C7_sync_decl_signals_zero (st : Option libxstream_stream)
    (s : libxstream_stream) :
    (offload_decl_sync st).signal_ = 0 ∧
    (offload_decl_sync st).signal_consumed_ = 0 ∧
    (offload_decl_sync st).pending_ = 0 ∧
    (offload_decl_sync (some s)).device_ = s.device ∧
    (offload_decl_sync none).device_ = 0 :=
  ⟨rfl, rfl, rfl, rfl, rfl⟩

/-- One bookkeeping step keeps the pending/signal invariant: after a
signal-consuming dispatch `pending` is the consumed value, one below
the advanced counter; a signal-free dispatch changes nothing; a
confirmation resets `pending` to 0. -/
lemma streamStep_inv (op : StreamOp) (s : libxstream_stream)
    (h : s.pending = 0 ∨ s.pending ≤ s.signal) :
    (streamStep op s).pending = 0 ∨
      (streamStep op s).pending ≤ (streamStep op s).signal := by
  cases op with
  | dispatchAsync => exact Or.inr (Nat.le_succ s.signal)
  | dispatchNoSignal => exact h
  | confirm => exact Or.inl rfl

/-- One bookkeeping step never decreases the signal counter. -/
lemma streamStep_signal_le (op : StreamOp) (s : libxstream_stream) :
    s.signal ≤ (streamStep op s).signal := by
  cases op with
  | dispatchAsync => exact Nat.le_succ s.signal
  | dispatchNoSignal => exact Nat.le_refl s.signal
  | confirm => exact Nat.le_refl s.signal

/-- The pending/signal invariant is preserved along any fold of
bookkeeping steps. -/
lemma streamFoldl_inv (ops : List StreamOp) (s : libxstream_stream)
    (h : s.pending = 0 ∨ s.pending ≤ s.signal) :
    (ops.foldl (fun t op => streamStep op t) s).pending = 0 ∨
      (ops.foldl (fun t op => streamStep op t) s).pending ≤
        (ops.foldl (fun t op => streamStep op t) s).signal := by
  induction ops generalizing s with
  | nil => exact h
  | cons op rest ih => exact ih (streamStep op s) (streamStep_inv op s h)

/-- C8: for every stream and every sequence of dispatch/bookkeeping
operations, the pending field is 0 or at most the current signal
counter, and the signal counter starts at 0 and never decreases when
the sequence is extended by a further operation. -/
theorem C8_signal_pending_invariant (device handle : Int)
    (ops : List StreamOp) (op : StreamOp) :
    (streamStart device handle).signal = 0 ∧
    ((streamRun device handle ops).pending = 0 ∨
      (streamRun device handle ops).pending ≤ (streamRun device handle ops).signal) ∧
    (streamRun device handle ops).signal ≤
      (streamRun device handle (ops ++ [op])).signal := by
  refine ⟨rfl, streamFoldl_inv ops (streamStart device handle) (Or.inl rfl), ?_⟩
  unfold streamRun
  rw [List.foldl_append]
  exact streamStep_signal_le op _

/-- C9 counterexample: the claim — every event operation returns a
non-zero status when an underlying backend call fails — is false for
`acc_event_create`: when `clCreateUserEvent` succeeds and the `foxtest`
call `clSetUserEventStatus` fails (error code -9999), the function
still returns 0. -/
theorem C9_create_unchecked_failure_returns_zero :
    acc_opencl_error_check (-9999) = true ∧
    (acc_event_create 2 CL_SUCCESS (-9999)
      ⟨false, CL_SUBMITTED, streamStart 1 4⟩).1 = 0 := by
  decide

/-- C9 amended: every event operation returns -1 when a backend call it
checks fails — the one unchecked call is the debug
`clSetUserEventStatus` inside `acc_event_create` — and every backend
failure leaves the state intact: a failing `acc_event_destroy` performs
no `free`, so the handle stays live and destroy remains safe; failing
record/query/wait/synchronize leave the world untouched; and a failing
`acc_event_create` leaves a live allocation behind the handle and
touches no stream's signal/pending state. -/
theorem C9_failure_leaves_state_intact (e : Int) (w : AccWorld)
    (h : acc_opencl_error_check e = true) :
    ((acc_event_destroy e w).1 = -1 ∧ (acc_event_destroy e w).2 = w) ∧
    ((acc_event_record e w).1 = -1 ∧ (acc_event_record e w).2 = w) ∧
    (∀ st e2 : Int, ∀ pv : Nat,
      (acc_event_query st e e2 pv w).1 = -1 ∧
      (acc_event_query st e e2 pv w).2.2 = w) ∧
    (∀ st e2 : Int, ∀ pv : Nat, acc_opencl_error_check e2 = false →
      (acc_event_query st e2 e pv w).1 = -1 ∧
      (acc_event_query st e2 e pv w).2.2 = w) ∧
    ((acc_stream_wait_event e w).1 = -1 ∧ (acc_stream_wait_event e w).2 = w) ∧
    ((acc_event_synchronize e w).1 = -1 ∧ (acc_event_synchronize e w).2 = w) ∧
    (∀ fresh : Nat, ∀ es : Int,
      (acc_event_create fresh e es w).1 = -1 ∧
      (acc_event_create fresh e es w).2.2.eventAlloc = true ∧
      (acc_event_create fresh e es w).2.2.streamState = w.streamState ∧
      (acc_event_create fresh e es w).2.2.eventStatus = w.eventStatus) := by
  refine ⟨?_, ?_, ?_, ?_, ?_, ?_, ?_⟩
  · unfold acc_event_destroy
    simp [h]
  · unfold acc_event_record
    simp [h]
  · intro st e2 pv
    unfold acc_event_query
    simp [h]
  · intro st e2 pv h2
    unfold acc_event_query
    simp [h2, h]
  · unfold acc_stream_wait_event
    simp [h]
  · unfold acc_event_synchronize
    simp [h]
  · intro fresh es
    unfold acc_event_create
    simp [h]

/-- C9 witness: the amended theorem's destroy conjunct at the failing
backend code -7: the status is -1 and the world — allocation included —
is unchanged. -/
theorem C9_failure_leaves_state_intact_witness :
    acc_opencl_error_check (-7) = true ∧
    (acc_event_destroy (-7) testWorld).1 = -1 ∧
    (acc_event_destroy (-7) testWorld).2 = testWorld :=
  ⟨by decide, (C9_failure_leaves_state_intact (-7) testWorld (by decide)).1.1,
    (C9_failure_leaves_state_intact (-7) testWorld (by decide)).1.2⟩

end Cp2kAcc
